import Mathlib

/-!
# `print` of `src/application.cpp`

The program is one routine, `print`, that calls two library operations in
sequence: `spdlog::info` with a fixed message, then `fmt::print` with a fixed
template and the constant `42`.

The embedding has three layers.

* `Collaborators` and `print`: the routine itself, over an arbitrary pair of
  library operations.  An operation is a state transformer that also reports
  whether it returned normally or raised a failure; a raised failure unwinds
  `print`, as a C++ exception does, and the state reached so far stays.
* `traced`: an instrumentation of any pair of operations that records the calls
  made, used to state what `print` calls and in which order.
* `World`, `spdlogInfo`, `fmtPrint`, `libs`: a model of the two libraries acting
  on a logging sink and on standard output, with injectable failures.
-/

namespace ConanStarter

/-! ## The routine -/

/-- The two library operations `print` uses.  `σ` is the state the libraries act
on and `ε` the failures they may raise.  Each operation returns its outcome and
the state it leaves behind (also when it fails). -/
structure Collaborators (σ ε : Type) where
  /-- Stands for `spdlog::info(msg)`. -/
  info : String → σ → Except ε Unit × σ
  /-- Stands for `fmt::print(tmpl, arg)` with one `int` argument.  The only value
  `print` passes is 42, so the width of `int` plays no role. -/
  fmtPrint : String → Int → σ → Except ε Unit × σ

/-- The routine `void print()`.  The template literal is `Formatted output: `
followed by an opening brace, a closing brace and a line feed; the two braces are
written `\x7b\x7d` here. -/
def print {σ ε : Type} (c : Collaborators σ ε) (s : σ) : Except ε Unit × σ :=
  match c.info "Hello, Conan Starter Project!" s with
  | (.error e, s1) => (.error e, s1)
  | (.ok _, s1) =>
    let arbitraryNumber : Int := 42
    c.fmtPrint "Formatted output: \x7b\x7d\n" arbitraryNumber s1

/-- A caller that invokes `print` `n` times in a row, stopping at the first
invocation that fails. -/
def printN {σ ε : Type} (c : Collaborators σ ε) : Nat → σ → Except ε Unit × σ
  | 0, s => (.ok (), s)
  | n + 1, s =>
    match print c s with
    | (.error e, s1) => (.error e, s1)
    | (.ok _, s1) => printN c n s1

/-! ## Recording the calls -/

/-- One call into a library, with its arguments. -/
inductive Call where
  | info (msg : String)
  | fmtPrint (tmpl : String) (arg : Int)
  deriving DecidableEq, Repr

/-- Instrumented operations: each behaves as the one it wraps and appends the
call to a log of calls kept next to the state. -/
def traced {σ ε : Type} (c : Collaborators σ ε) : Collaborators (σ × List Call) ε where
  info msg st :=
    let r := c.info msg st.1
    (r.1, (r.2, st.2 ++ [Call.info msg]))
  fmtPrint tmpl arg st :=
    let r := c.fmtPrint tmpl arg st.1
    (r.1, (r.2, st.2 ++ [Call.fmtPrint tmpl arg]))

/-! ## A model of the two libraries -/

/-- Severity levels of the logging library, lowest first. -/
inductive Level where
  | trace | debug | info | warn | err | critical | off
  deriving DecidableEq, Repr

/-- One record held by the logging sink: its severity and its rendered text. -/
structure LogRecord where
  level : Level
  text : List Char
  deriving DecidableEq, Repr

/-- What the libraries act on: the records of the logging sink (oldest first),
the characters written to standard output so far, and `rest`, which stands for
all other state of the process. -/
structure World (ρ : Type) where
  sink : List LogRecord
  stdout : List Char
  rest : ρ

/-- How the sink decorates a message: the text of a record is the header for its
severity, then the message, then the trailer. -/
structure Layout where
  header : Level → List Char
  trailer : List Char

/-- The failures the environment injects.  `logFault w` is the failure the sink
raises in world `w`, if any; `outFault w` is the failure standard output raises,
if any, with the number of characters it accepted before failing. -/
structure Faults (ρ ε : Type) where
  logFault : World ρ → Option ε
  outFault : World ρ → Option (ε × Nat)

/-- The environment in which no library call fails. -/
def noFaults {ρ ε : Type} : Faults ρ ε where
  logFault _ := none
  outFault _ := none

/-- Why a template cannot be formatted. -/
inductive FormatError where
  /-- A replacement field with no argument left for it. -/
  | argNotFound
  /-- A closing brace that closes nothing. -/
  | unmatchedBrace
  /-- An opening brace that is never closed. -/
  | invalidFormat
  /-- A replacement field with an index or a format specification, which this
  model does not cover. -/
  | unsupported
  deriving DecidableEq, Repr

/-- A failure of a library call: the template was rejected, or the stream under
the library failed with `e`. -/
inductive Failure (ε : Type) where
  | format (e : FormatError)
  | stream (e : ε)

/-- The opening brace. -/
def lbrace : Char := Char.ofNat 123

/-- The closing brace. -/
def rbrace : Char := Char.ofNat 125

/-- The line feed. -/
def newline : Char := Char.ofNat 10

/-- Modelled from the spec: the formatting library is not part of the
repository; this is the decimal rendering of an integer argument, a minus sign
for a negative value and then the digits. -/
def renderInt : Int → List Char
  | Int.ofNat n => Nat.toDigits 10 n
  | Int.negSucc n => Char.ofNat 45 :: Nat.toDigits 10 (n + 1)

/-- Modelled from the spec: the formatting library is not part of the
repository; this interpolates one integer argument into a template.  A doubled
brace stands for the brace itself, an empty pair of braces is replaced by the
rendering of the next argument (`used` counts the arguments consumed so far, and
there is one argument), every other character is copied. -/
def vformat (arg : Int) : Nat → List Char → Except FormatError (List Char)
  | _, [] => .ok []
  | used, [c] =>
    if c = lbrace then .error .invalidFormat
    else if c = rbrace then .error .unmatchedBrace
    else (vformat arg used []).map (c :: ·)
  | used, c :: d :: cs =>
    if c = lbrace then
      if d = lbrace then (vformat arg used cs).map (lbrace :: ·)
      else if d = rbrace then
        if used = 0 then (vformat arg (used + 1) cs).map (renderInt arg ++ ·)
        else .error .argNotFound
      else .error .unsupported
    else if c = rbrace then
      if d = rbrace then (vformat arg used cs).map (rbrace :: ·)
      else .error .unmatchedBrace
    else (vformat arg used (d :: cs)).map (c :: ·)

/-- Modelled from the spec: the logging library is not part of the repository;
its info-level log operation appends one record of severity `info` whose text is
the decorated message to the sink, unless the sink fails, in which case nothing
is recorded.  It touches nothing but the sink.  The logger is taken as
initialised and accepting `info` records; the message is recorded verbatim (the
one `print` passes has no brace). -/
def spdlogInfo {ρ ε : Type} (lay : Layout) (f : Faults ρ ε) (msg : String)
    (w : World ρ) : Except (Failure ε) Unit × World ρ :=
  match f.logFault w with
  | some e => (.error (.stream e), w)
  | none =>
    (.ok (), { w with
      sink := w.sink ++ [⟨Level.info, lay.header Level.info ++ msg.data ++ lay.trailer⟩] })

/-- Modelled from the spec: the formatting library is not part of the
repository; its format-and-print operation interpolates the argument into the
template and appends the text to standard output.  A rejected template writes
nothing; a failing stream keeps the characters it accepted before failing.  It
touches nothing but standard output. -/
def fmtPrint {ρ ε : Type} (f : Faults ρ ε) (tmpl : String) (arg : Int)
    (w : World ρ) : Except (Failure ε) Unit × World ρ :=
  match vformat arg 0 tmpl.data with
  | .error fe => (.error (.format fe), w)
  | .ok text =>
    match f.outFault w with
    | some (e, k) => (.error (.stream e), { w with stdout := w.stdout ++ text.take k })
    | none => (.ok (), { w with stdout := w.stdout ++ text })

/-- The two libraries, with sink layout `lay`, in environment `f`. -/
def libs {ρ ε : Type} (lay : Layout) (f : Faults ρ ε) :
    Collaborators (World ρ) (Failure ε) where
  info := spdlogInfo lay f
  fmtPrint := fmtPrint f

/-! ## Shared lemmas -/

/-- Unfolding of `print` when the log call fails. -/
theorem print_of_info_error {σ ε : Type} (c : Collaborators σ ε) (s s1 : σ) (e : ε)
    (h : c.info "Hello, Conan Starter Project!" s = (.error e, s1)) :
    print c s = (.error e, s1) := by
  simp [print, h]

/-- Unfolding of `print` when the log call returns. -/
theorem print_of_info_ok {σ ε : Type} (c : Collaborators σ ε) (s s1 : σ)
    (h : c.info "Hello, Conan Starter Project!" s = (.ok (), s1)) :
    print c s = c.fmtPrint "Formatted output: \x7b\x7d\n" 42 s1 := by
  simp [print, h]

/-- The model of the formatting library turns the template of `print` and the
argument 42 into the line `Formatted output: 42`. -/
theorem vformat_template :
    vformat 42 0 "Formatted output: \x7b\x7d\n".data = .ok "Formatted output: 42\n".data :=
  rfl

/-- One invocation of `print` on the model libraries, when nothing fails: it
returns, the sink has one more record and standard output one more line. -/
theorem print_libs_noFaults {ρ ε : Type} (lay : Layout) (w : World ρ) :
    print (libs lay (noFaults : Faults ρ ε)) w =
      (.ok (),
        { sink := w.sink ++ [⟨Level.info,
            lay.header Level.info ++ "Hello, Conan Starter Project!".data ++ lay.trailer⟩]
          stdout := w.stdout ++ "Formatted output: 42\n".data
          rest := w.rest }) := by
  rw [print_of_info_ok _ w _ rfl]
  show fmtPrint noFaults "Formatted output: \x7b\x7d\n" 42 _ = _
  unfold fmtPrint
  rw [vformat_template]
  rfl

/-- Instrumenting the libraries does not change what `print` does to the state
or how it ends. -/
theorem print_traced_erase {σ ε : Type} (c : Collaborators σ ε) (s : σ) (tr : List Call) :
    (print (traced c) (s, tr)).1 = (print c s).1 ∧
    (print (traced c) (s, tr)).2.1 = (print c s).2 := by
  rcases h : c.info "Hello, Conan Starter Project!" s with ⟨r, s1⟩
  cases r with
  | error e =>
    rw [print_of_info_error c s s1 e h,
      print_of_info_error (traced c) (s, tr) (s1, tr ++ [Call.info "Hello, Conan Starter Project!"]) e (by simp [traced, h])]
    exact ⟨rfl, rfl⟩
  | ok u =>
    rw [print_of_info_ok c s s1 h,
      print_of_info_ok (traced c) (s, tr) (s1, tr ++ [Call.info "Hello, Conan Starter Project!"]) (by simp [traced, h])]
    exact ⟨rfl, rfl⟩

/-- The calls `print` makes: the log call, and the format-and-print call after it
when the log call returned. -/
theorem print_traced_calls {σ ε : Type} (c : Collaborators σ ε) (s : σ) (tr : List Call) :
    (print (traced c) (s, tr)).2.2 =
      tr ++ (if (c.info "Hello, Conan Starter Project!" s).1.isOk
        then [Call.info "Hello, Conan Starter Project!",
              Call.fmtPrint "Formatted output: \x7b\x7d\n" 42]
        else [Call.info "Hello, Conan Starter Project!"]) := by
  rcases h : c.info "Hello, Conan Starter Project!" s with ⟨r, s1⟩
  cases r with
  | error e =>
    rw [print_of_info_error (traced c) (s, tr) (s1, tr ++ [Call.info "Hello, Conan Starter Project!"]) e (by simp [traced, h])]
    simp [Except.isOk, Except.toBool]
  | ok u =>
    rw [print_of_info_ok (traced c) (s, tr) (s1, tr ++ [Call.info "Hello, Conan Starter Project!"]) (by simp [traced, h])]
    simp [traced, Except.isOk, Except.toBool]

/-- The model logging call never touches standard output or the rest of the
state, whether it returns or fails. -/
theorem spdlogInfo_frame {ρ ε : Type} (lay : Layout) (f : Faults ρ ε) (msg : String)
    (w : World ρ) :
    (spdlogInfo lay f msg w).2.stdout = w.stdout ∧
    (spdlogInfo lay f msg w).2.rest = w.rest ∧
    w.sink <+: (spdlogInfo lay f msg w).2.sink := by
  unfold spdlogInfo
  cases f.logFault w with
  | some e => exact ⟨rfl, rfl, ⟨[], by simp⟩⟩
  | none => exact ⟨rfl, rfl, ⟨_, rfl⟩⟩

/-- The model format-and-print call never touches the sink or the rest of the
state, and only appends to standard output, whether it returns or fails. -/
theorem fmtPrint_frame {ρ ε : Type} (f : Faults ρ ε) (tmpl : String) (arg : Int)
    (w : World ρ) :
    (fmtPrint f tmpl arg w).2.sink = w.sink ∧
    (fmtPrint f tmpl arg w).2.rest = w.rest ∧
    w.stdout <+: (fmtPrint f tmpl arg w).2.stdout := by
  unfold fmtPrint
  cases vformat arg 0 tmpl.data with
  | error fe => exact ⟨rfl, rfl, ⟨[], by simp⟩⟩
  | ok text =>
    cases f.outFault w with
    | some ek => exact ⟨rfl, rfl, ⟨_, rfl⟩⟩
    | none => exact ⟨rfl, rfl, ⟨_, rfl⟩⟩

/-- The state `print` leaves is the one left by the log call, when that call
failed, and otherwise the one left by the format-and-print call made after it. -/
theorem print_state_cases {σ ε : Type} (c : Collaborators σ ε) (s : σ) :
    (print c s).2 = (c.info "Hello, Conan Starter Project!" s).2 ∨
    (print c s).2 = (c.fmtPrint "Formatted output: \x7b\x7d\n" 42
      (c.info "Hello, Conan Starter Project!" s).2).2 := by
  rcases h : c.info "Hello, Conan Starter Project!" s with ⟨r, s1⟩
  cases r with
  | error e => left; rw [print_of_info_error c s s1 e h]
  | ok u => right; rw [print_of_info_ok c s s1 h]

/-- The result of `n` invocations of `print` on the model libraries, when nothing
fails. -/
theorem printN_libs_noFaults {ρ ε : Type} (lay : Layout) (n : Nat) (w : World ρ) :
    printN (libs lay (noFaults : Faults ρ ε)) n w =
      (.ok (),
        { sink := w.sink ++ List.replicate n ⟨Level.info,
            lay.header Level.info ++ "Hello, Conan Starter Project!".data ++ lay.trailer⟩
          stdout := w.stdout ++ (List.replicate n "Formatted output: 42\n".data).flatten
          rest := w.rest }) := by
  induction n generalizing w with
  | zero => simp [printN]
  | succ n ih =>
    simp only [printN, print_libs_noFaults, ih, List.replicate_succ, List.flatten_cons,
      List.append_assoc, List.singleton_append]

/-! ## The claims -/

/-- C1: whatever the logging sink and standard output hold beforehand, one
invocation of `print` returns and appends to standard output exactly the text
`Formatted output: 42` followed by a line feed.  That text is one line (its only
line feed is its last character), and it is the template with its placeholder,
the pair of braces, replaced by the decimal rendering of 42. -/
theorem print_writes_formatted_line {ρ ε : Type} (lay : Layout) (w : World ρ) :
    (print (libs lay (noFaults : Faults ρ ε)) w).1 = .ok () ∧
    (print (libs lay (noFaults : Faults ρ ε)) w).2.stdout =
      w.stdout ++ "Formatted output: 42\n".data ∧
    "Formatted output: 42\n".data.count newline = 1 ∧
    "Formatted output: 42\n".data.getLast? = some newline ∧
    "Formatted output: \x7b\x7d\n".data =
      "Formatted output: ".data ++ [lbrace, rbrace] ++ [newline] ∧
    "Formatted output: 42\n".data =
      "Formatted output: ".data ++ renderInt 42 ++ [newline] ∧
    vformat 42 0 "Formatted output: \x7b\x7d\n".data = .ok "Formatted output: 42\n".data := by
  rw [print_libs_noFaults]
  exact ⟨rfl, rfl, by decide, by decide, by decide, by decide, rfl⟩

/-- C2: whatever the logging sink holds beforehand, one invocation of `print`
adds exactly one record to it; the record has severity `info` and its text
contains `Hello, Conan Starter Project!`. -/
theorem print_logs_one_info_record {ρ ε : Type} (lay : Layout) (w : World ρ) :
    ∃ r : LogRecord,
      (print (libs lay (noFaults : Faults ρ ε)) w).2.sink = w.sink ++ [r] ∧
      r.level = Level.info ∧
      "Hello, Conan Starter Project!".data <:+: r.text := by
  rw [print_libs_noFaults]
  exact ⟨_, rfl, rfl, ⟨lay.header Level.info, lay.trailer, rfl⟩⟩

/-- C3: for every `n` and every initial state, `n` successive invocations of
`print` return, add exactly `n` records to the sink and `n` lines to standard
output, and each of them is the record, respectively the line, that a single
invocation adds. -/
theorem printN_repeats_single_output {ρ ε : Type} (lay : Layout) (n : Nat) (w : World ρ) :
    (printN (libs lay (noFaults : Faults ρ ε)) n w).1 = .ok () ∧
    (printN (libs lay (noFaults : Faults ρ ε)) n w).2.sink =
      w.sink ++ List.replicate n ⟨Level.info,
        lay.header Level.info ++ "Hello, Conan Starter Project!".data ++ lay.trailer⟩ ∧
    (printN (libs lay (noFaults : Faults ρ ε)) n w).2.stdout =
      w.stdout ++ (List.replicate n "Formatted output: 42\n".data).flatten ∧
    (print (libs lay (noFaults : Faults ρ ε)) w).2.sink =
      w.sink ++ [⟨Level.info,
        lay.header Level.info ++ "Hello, Conan Starter Project!".data ++ lay.trailer⟩] ∧
    (print (libs lay (noFaults : Faults ρ ε)) w).2.stdout =
      w.stdout ++ "Formatted output: 42\n".data := by
  rw [printN_libs_noFaults, print_libs_noFaults]
  exact ⟨rfl, rfl, rfl, rfl, rfl⟩

/-- C4: for any pair of library operations and any state, the calls one
invocation of `print` makes are the info-level log call first and the
format-and-print call after it, and no other call; the second call is made when
the first returned, and only the first is made when it failed. -/
theorem print_call_order {σ ε : Type} (c : Collaborators σ ε) (s : σ) (tr : List Call) :
    (print (traced c) (s, tr)).2.2 =
      tr ++ (if (c.info "Hello, Conan Starter Project!" s).1.isOk
        then [Call.info "Hello, Conan Starter Project!",
              Call.fmtPrint "Formatted output: \x7b\x7d\n" 42]
        else [Call.info "Hello, Conan Starter Project!"]) :=
  print_traced_calls c s tr

/-- C5: `print` has no input, and for any two initial states (and sink layouts)
the format-and-print call it makes has the argument 42 and the text it appends
to standard output is the same, `Formatted output: 42` and a line feed. -/
theorem print_embeds_constant_42 {ρ ε : Type} (lay1 lay2 : Layout) (w1 w2 : World ρ)
    (tr1 tr2 : List Call) :
    (print (traced (libs lay1 (noFaults : Faults ρ ε))) (w1, tr1)).2.2 =
      tr1 ++ [Call.info "Hello, Conan Starter Project!",
              Call.fmtPrint "Formatted output: \x7b\x7d\n" 42] ∧
    (print (traced (libs lay2 (noFaults : Faults ρ ε))) (w2, tr2)).2.2 =
      tr2 ++ [Call.info "Hello, Conan Starter Project!",
              Call.fmtPrint "Formatted output: \x7b\x7d\n" 42] ∧
    (print (traced (libs lay1 (noFaults : Faults ρ ε))) (w1, tr1)).2.1.stdout =
      w1.stdout ++ "Formatted output: 42\n".data ∧
    (print (traced (libs lay2 (noFaults : Faults ρ ε))) (w2, tr2)).2.1.stdout =
      w2.stdout ++ "Formatted output: 42\n".data := by
  rw [print_traced_calls, print_traced_calls, (print_traced_erase _ w1 tr1).2,
    (print_traced_erase _ w2 tr2).2, print_libs_noFaults, print_libs_noFaults]
  exact ⟨rfl, rfl, rfl, rfl⟩

/-- C6: for any pair of library operations, `print` fails with `e` exactly when
its log call fails with `e`, or its log call returns and the format-and-print
call made after it fails with `e`: a failure of a call is passed on unchanged,
and `print` raises none of its own. -/
theorem print_fails_iff_call_fails {σ ε : Type} (c : Collaborators σ ε) (s : σ) (e : ε) :
    (print c s).1 = .error e ↔
      (c.info "Hello, Conan Starter Project!" s).1 = .error e ∨
      ((c.info "Hello, Conan Starter Project!" s).1 = .ok () ∧
        (c.fmtPrint "Formatted output: \x7b\x7d\n" 42
          (c.info "Hello, Conan Starter Project!" s).2).1 = .error e) := by
  rcases h : c.info "Hello, Conan Starter Project!" s with ⟨r, s1⟩
  cases r with
  | error e1 => rw [print_of_info_error c s s1 e1 h]; simp
  | ok u => rw [print_of_info_ok c s s1 h]; simp

/-- C7: if the info-level log call of `print` fails with `e`, then `print` fails
with `e`, the log call is the only call it makes (the format-and-print call is
not made), it leaves the state the log call left, and standard output is exactly
what it was before the invocation. -/
theorem print_stops_when_log_fails {ρ ε : Type} (lay : Layout) (f : Faults ρ ε)
    (w : World ρ) (tr : List Call) (e : Failure ε)
    (h : ((libs lay f).info "Hello, Conan Starter Project!" w).1 = .error e) :
    (print (traced (libs lay f)) (w, tr)).1 = .error e ∧
    (print (traced (libs lay f)) (w, tr)).2.2 =
      tr ++ [Call.info "Hello, Conan Starter Project!"] ∧
    (print (traced (libs lay f)) (w, tr)).2.1 =
      ((libs lay f).info "Hello, Conan Starter Project!" w).2 ∧
    (print (traced (libs lay f)) (w, tr)).2.1.stdout = w.stdout := by
  have hp : print (libs lay f) w =
      (.error e, ((libs lay f).info "Hello, Conan Starter Project!" w).2) :=
    print_of_info_error _ w _ e (Prod.ext h rfl)
  rw [print_traced_calls, (print_traced_erase _ w tr).1, (print_traced_erase _ w tr).2, hp, h]
  exact ⟨rfl, rfl, rfl, (spdlogInfo_frame lay f _ w).1⟩

/-- Witness for C7: a sink that always fails with 5, on the empty world. -/
theorem print_stops_when_log_fails_witness :
    ((libs ⟨fun _ => [], []⟩ (⟨fun _ => some 5, fun _ => none⟩ : Faults Unit Nat)).info
        "Hello, Conan Starter Project!" ⟨[], [], ()⟩).1 = .error (Failure.stream 5) ∧
    ((print (traced (libs ⟨fun _ => [], []⟩ (⟨fun _ => some 5, fun _ => none⟩ : Faults Unit Nat)))
        (⟨[], [], ()⟩, [])).1 = .error (Failure.stream 5) ∧
     (print (traced (libs ⟨fun _ => [], []⟩ (⟨fun _ => some 5, fun _ => none⟩ : Faults Unit Nat)))
        (⟨[], [], ()⟩, [])).2.2 = [] ++ [Call.info "Hello, Conan Starter Project!"] ∧
     (print (traced (libs ⟨fun _ => [], []⟩ (⟨fun _ => some 5, fun _ => none⟩ : Faults Unit Nat)))
        (⟨[], [], ()⟩, [])).2.1 =
      ((libs ⟨fun _ => [], []⟩ (⟨fun _ => some 5, fun _ => none⟩ : Faults Unit Nat)).info
        "Hello, Conan Starter Project!" ⟨[], [], ()⟩).2 ∧
     (print (traced (libs ⟨fun _ => [], []⟩ (⟨fun _ => some 5, fun _ => none⟩ : Faults Unit Nat)))
        (⟨[], [], ()⟩, [])).2.1.stdout = []) :=
  ⟨rfl,
   print_stops_when_log_fails ⟨fun _ => [], []⟩ ⟨fun _ => some 5, fun _ => none⟩
      ⟨[], [], ()⟩ [] (Failure.stream 5) rfl⟩

/-- C8: in every environment, failing or not, and from every initial state,
`print` only appends: the records of the sink and the characters of standard
output before the call are an initial segment of those after it, and the rest of
the state is unchanged.  `print` returns no value and is a function of the state
of the libraries alone. -/
theorem print_appends_only {ρ ε : Type} (lay : Layout) (f : Faults ρ ε) (w : World ρ) :
    w.sink <+: (print (libs lay f) w).2.sink ∧
    w.stdout <+: (print (libs lay f) w).2.stdout ∧
    (print (libs lay f) w).2.rest = w.rest := by
  have hi := spdlogInfo_frame lay f "Hello, Conan Starter Project!" w
  have hf := fmtPrint_frame f "Formatted output: \x7b\x7d\n" 42
    (spdlogInfo lay f "Hello, Conan Starter Project!" w).2
  rcases print_state_cases (libs lay f) w with hs | hs
  · rw [hs]
    exact ⟨hi.2.2, ⟨[], by rw [List.append_nil]; exact hi.1.symm⟩, hi.2.1⟩
  · rw [hs]
    refine ⟨?_, ?_, ?_⟩
    · show w.sink <+: (fmtPrint f _ 42 (spdlogInfo lay f _ w).2).2.sink
      rw [hf.1]; exact hi.2.2
    · show w.stdout <+: (fmtPrint f _ 42 (spdlogInfo lay f _ w).2).2.stdout
      rw [← hi.1]; exact hf.2.2
    · show (fmtPrint f _ 42 (spdlogInfo lay f _ w).2).2.rest = w.rest
      rw [hf.2.1]; exact hi.2.1

end ConanStarter
